import Mathlib

/-!
Verification of the Frinny front-end transport/correlation engine
(`AgentManager`, the WebSocket manager of the module).

The engine is embedded shallowly:

* JSON envelopes are flat association lists of fields (`Envelope`).
  The source generates correlation ids with `Date.now().toString()` and
  matches them by string equality; since the generated ids are exactly the
  decimal numerals, and decimal numerals are equal iff the underlying
  numbers are, ids are modelled by their numeric value (`Nat`).  An inbound
  `request_id` field that is a decimal numeral is modelled by `JField.num`.
* The `pendingRequests` `Map` is an association list `correlation id ↦ index`
  into a ledger of promise records (`requests`).  The ledger records, for
  every promise ever created by `_emitAndWait`, whether it is still
  unsettled, resolved, or rejected — a JS promise settles at most once, so
  `settleAt` changes only an `unsettled` record.
* Each callback / method of the manager becomes a state transformer; the
  asynchronous parts (timeout callbacks, inbound messages, close events)
  become events of a step function `stepEv`, and executions are event lists
  folded by `run`.
-/

/-- A JSON field value of the flat envelopes exchanged by the manager. -/
inductive JField where
  | str (s : String)
  | num (n : Nat)
  | bool (b : Bool)
deriving DecidableEq, Repr

/-- A flat JSON object: the envelope shape sent and received over the socket. -/
abbrev Envelope := List (String × JField)

/-- First field with the given key, like JS property access on the parsed object. -/
def lookupField (k : String) : Envelope → Option JField
  | [] => none
  | f :: rest => if f.1 = k then some f.2 else lookupField k rest

/-- The status of one promise created by `_emitAndWait`: a JS promise is
settled at most once, and we record the settling value. -/
inductive PromiseStatus where
  | unsettled
  | resolved (v : Envelope)
  | rejected (e : String)
deriving DecidableEq, Repr

/-- `maxReconnectAttempts` — set to 5 in the constructor. -/
def maxReconnectAttempts : Nat := 5

/-- The state of the `AgentManager`.

`promiseId`, `promiseCounter` and `attemptsStarted` are ghost
instrumentation: `promiseId` models the object identity of the current
`connectionPromise`, `promiseCounter` supplies fresh identities, and
`attemptsStarted` counts `new RobustWebSocket(...)` constructions (physical
connection attempts).  `pending` models the `pendingRequests` map as an
association list from correlation id to the index of the promise record in
the ledger `requests`. -/
structure AgentState where
  isConnected : Bool
  socketPresent : Bool
  connectionInProgress : Bool
  promiseId : Nat
  promiseCounter : Nat
  attemptsStarted : Nat
  reconnectAttempts : Nat
  pending : List (Nat × Nat)
  requests : List PromiseStatus
deriving DecidableEq, Repr

/-- `pendingRequests.get(id)` (as the ledger index stored for that id). -/
def lookupId (id : Nat) : List (Nat × Nat) → Option Nat
  | [] => none
  | e :: rest => if e.1 = id then some e.2 else lookupId id rest

/-- `pendingRequests.set(id, i)`: replace in place if the key exists
(JS `Map.set` keeps the original position), append otherwise. -/
def setId (id i : Nat) : List (Nat × Nat) → List (Nat × Nat)
  | [] => [(id, i)]
  | e :: rest => if e.1 = id then (id, i) :: rest else e :: setId id i rest

/-- `pendingRequests.delete(id)`. -/
def eraseId (id : Nat) : List (Nat × Nat) → List (Nat × Nat)
  | [] => []
  | e :: rest => if e.1 = id then eraseId id rest else e :: eraseId id rest

/-- Settle the promise record at index `i`: a no-op unless the record is
still unsettled (a JS promise's second settlement is ignored). -/
def settleAt (l : List PromiseStatus) (i : Nat) (s : PromiseStatus) : List PromiseStatus :=
  match l.get? i with
  | some PromiseStatus.unsettled => l.set i s
  | _ => l

/-- Reject every entry of the pending table with message `msg` and clear the
table: the mass-rejection loops of `_onClose`, `_onError` and the global
branch of the `error` handler. -/
def rejectAllPending (msg : String) (st : AgentState) : AgentState :=
  { st with
    requests := st.pending.foldl (fun l e => settleAt l e.2 (PromiseStatus.rejected msg)) st.requests
    pending := [] }

/-- `_handleSocketResponse(requestId, data)`: resolve the pending request for
`requestId`, if any, with the whole `data` object; the stored `resolve`
first runs `cleanup`, which deletes the table entry. -/
def handleSocketResponse (rid : Nat) (data : Envelope) (st : AgentState) : AgentState :=
  match lookupId rid st.pending with
  | some i =>
      { st with
        requests := settleAt st.requests i (PromiseStatus.resolved data)
        pending := eraseId rid st.pending }
  | none => st

/-- `_handleSocketError(requestId, error)`: reject the pending request for
`requestId`, if any; the stored `reject` first runs `cleanup`. -/
def handleSocketError (rid : Nat) (msg : String) (st : AgentState) : AgentState :=
  match lookupId rid st.pending with
  | some i =>
      { st with
        requests := settleAt st.requests i (PromiseStatus.rejected msg)
        pending := eraseId rid st.pending }
  | none => st

/-- The 30s timeout callback registered by `_emitAndWait` for correlation id
`rid`: if the id is still in the table, reject that entry with the timeout
error (the retrieved `cleanup` deletes the entry); otherwise only log. -/
def timeoutFire (rid : Nat) (st : AgentState) : AgentState :=
  match lookupId rid st.pending with
  | some i =>
      { st with
        requests := settleAt st.requests i (PromiseStatus.rejected "WebSocket response timeout")
        pending := eraseId rid st.pending }
  | none => st

/-- `_emitAndWait(type, data)` at wall-clock time `now` (ms).  Returns the
new state and either the synchronous connection-not-ready throw or the
correlation id of the registered request.  `sendErr = some m` models
`socket.send` throwing synchronously with message `m`: the catch block then
rejects the just-registered entry with a wrapped error. -/
def emitAndWait (now : Nat) (sendErr : Option String) (st : AgentState) :
    AgentState × Except String Nat :=
  if st.isConnected && st.socketPresent then
    let requestId := now
    let i := st.requests.length
    let st₁ := { st with
                 requests := st.requests ++ [PromiseStatus.unsettled]
                 pending := setId requestId i st.pending }
    match sendErr with
    | none => (st₁, Except.ok requestId)
    | some m =>
        (handleSocketError requestId ("WebSocket send failed: " ++ m) st₁,
         Except.ok requestId)
  else
    (st, Except.error "WebSocket not connected")

/-- `_onOpen`: mark connected, reset the reconnection counter, resolve the
connection promise (so `connectionPromise = null` afterwards). -/
def onOpen (st : AgentState) : AgentState :=
  { st with isConnected := true, reconnectAttempts := 0, connectionInProgress := false }

/-- `_onClose`: mark disconnected, reject every pending request with the
disconnection error and clear the table, and reject a still-pending
connection promise. -/
def onClose (st : AgentState) : AgentState :=
  let st₁ := rejectAllPending "WebSocket disconnected" { st with isConnected := false }
  { st₁ with connectionInProgress := false }

/-- `_onError`: reject every pending request with the connection error and
clear the table, and reject a still-pending connection promise. -/
def onError (st : AgentState) : AgentState :=
  let st₁ := rejectAllPending "WebSocket connection error" st
  { st₁ with connectionInProgress := false }

/-- The message of an inbound error envelope (`error.message`). -/
def errMsgOf (data : Envelope) : String :=
  match lookupField "message" data with
  | some (JField.str m) => m
  | _ => "undefined"

/-- The response-type action tags registered in `_setupMessageHandlers` that
route to `_handleSocketResponse`. -/
def responseActions : List String :=
  ["query_response", "character_creation_response", "combat_suggestion", "level_up_response"]

/-- `_onMessage` after JSON parsing, composed with the handlers installed by
`_setupMessageHandlers`: dispatch on `data.action`; response tags resolve by
`data.request_id`; `typing_status` only invokes the typing callback; an
`error` envelope with a truthy `request_id` rejects that one request, and
without one rejects every pending request; unknown tags are only logged. -/
def onMessage (data : Envelope) (st : AgentState) : AgentState :=
  match lookupField "action" data with
  | some (JField.str a) =>
      if a ∈ responseActions then
        match lookupField "request_id" data with
        | some (JField.num rid) => handleSocketResponse rid data st
        | _ => st
      else if a = "error" then
        match lookupField "request_id" data with
        | some (JField.num rid) => handleSocketError rid (errMsgOf data) st
        | some (JField.str s) =>
            if s = "" then rejectAllPending ("WebSocket server error: " ++ errMsgOf data) st
            else st
        | some (JField.bool b) =>
            if b then st else rejectAllPending ("WebSocket server error: " ++ errMsgOf data) st
        | none => rejectAllPending ("WebSocket server error: " ++ errMsgOf data) st
      else st
  | _ => st

/-- `connect()`: if a connection attempt is already in progress, return the
existing `connectionPromise`; otherwise start a fresh attempt — construct a
new socket (one physical attempt) and publish a fresh connection promise.
The returned `Nat` is the identity of the promise handed to the caller. -/
def connect (st : AgentState) : AgentState × Nat :=
  if st.connectionInProgress then (st, st.promiseId)
  else
    ({ st with
       connectionInProgress := true
       promiseId := st.promiseCounter
       promiseCounter := st.promiseCounter + 1
       socketPresent := true
       attemptsStarted := st.attemptsStarted + 1 }, st.promiseCounter)

/-- The `shouldReconnect` callback given to `RobustWebSocket`: at or past the
maximum it returns `false` (stop, modelled `none`); below it, it increments
the counter and returns `min(1000 * 1.5 ^ attempts, 5000)` milliseconds. -/
def shouldReconnect (st : AgentState) : AgentState × Option ℚ :=
  if st.reconnectAttempts ≥ maxReconnectAttempts then (st, none)
  else
    let st' := { st with reconnectAttempts := st.reconnectAttempts + 1 }
    (st', some (min (1000 * (3 / 2 : ℚ) ^ st'.reconnectAttempts) 5000))

/-- The reconnection prefix of `_sendEvent`: when not connected, reset the
counter and call `connect()` (the subsequent `_emitAndWait` happens after
the awaited connection, outside this synchronous prefix). -/
def sendEventReconnect (st : AgentState) : AgentState :=
  if st.isConnected && st.socketPresent then st
  else (connect { st with reconnectAttempts := 0 }).1

/-- One tick of the periodic reconnection check installed by
`_startPeriodicReconnection`: if disconnected with no socket and no attempt
in progress, reset the counter and call `connect()`. -/
def periodicReconnectCheck (st : AgentState) : AgentState :=
  if !st.isConnected && !st.socketPresent && !st.connectionInProgress then
    (connect { st with reconnectAttempts := 0 }).1
  else st

/-- The events that can act on the manager's state. -/
inductive Ev where
  | send (now : Nat) (sendErr : Option String)
  | msg (data : Envelope)
  | timeout (rid : Nat)
  | close
  | sockError
  | opened
  | connectCall
  | reconnectCb
  | sendEventStart
  | periodicTick
deriving DecidableEq, Repr

/-- The step function: how each event transforms the state. -/
def stepEv (ev : Ev) (st : AgentState) : AgentState :=
  match ev with
  | Ev.send now sendErr => (emitAndWait now sendErr st).1
  | Ev.msg data => onMessage data st
  | Ev.timeout rid => timeoutFire rid st
  | Ev.close => onClose st
  | Ev.sockError => onError st
  | Ev.opened => onOpen st
  | Ev.connectCall => (connect st).1
  | Ev.reconnectCb => (shouldReconnect st).1
  | Ev.sendEventStart => sendEventReconnect st
  | Ev.periodicTick => periodicReconnectCheck st

/-- Run a list of events in order. -/
def run (evs : List Ev) (st : AgentState) : AgentState :=
  evs.foldl (fun s e => stepEv e s) st

/-- A freshly connected manager with an empty table (state right after a
successful `connect()` resolved). -/
def connState : AgentState :=
  { isConnected := true
    socketPresent := true
    connectionInProgress := false
    promiseId := 0
    promiseCounter := 1
    attemptsStarted := 1
    reconnectAttempts := 0
    pending := []
    requests := [] }

/-- The well-formedness invariant of the pending table: keys are distinct,
stored ledger indices are distinct, and every entry points to a record that
is still unsettled. -/
def TableInv (st : AgentState) : Prop :=
  (st.pending.map Prod.fst).Nodup ∧
  (st.pending.map Prod.snd).Nodup ∧
  ∀ e ∈ st.pending, st.requests.get? e.2 = some PromiseStatus.unsettled

instance (st : AgentState) : Decidable (TableInv st) := by
  unfold TableInv
  infer_instance

/-! ### Helper lemmas about the pending table -/

theorem lookupId_eraseId_self (id : Nat) (p : List (Nat × Nat)) :
    lookupId id (eraseId id p) = none := by
  induction p with
  | nil => rfl
  | cons e rest ih =>
      by_cases h : e.1 = id
      · simpa [eraseId, h] using ih
      · simpa [eraseId, lookupId, h] using ih

theorem lookupId_eraseId_ne (id' id : Nat) (p : List (Nat × Nat)) (h : id' ≠ id) :
    lookupId id' (eraseId id p) = lookupId id' p := by
  induction p with
  | nil => rfl
  | cons e rest ih =>
      by_cases he : e.1 = id
      · have h2 : ¬ e.1 = id' := fun hc => h (hc ▸ he)
        simp [eraseId, he, lookupId, h2, ih, Ne.symm h]
      · by_cases h3 : e.1 = id'
        · simp [eraseId, he, lookupId, h3, h, ih]
        · simp [eraseId, he, lookupId, h3, h, ih]

theorem lookupId_setId_self (id i : Nat) (p : List (Nat × Nat)) :
    lookupId id (setId id i p) = some i := by
  induction p with
  | nil => simp [setId, lookupId]
  | cons e rest ih =>
      by_cases he : e.1 = id
      · simp [setId, he, lookupId]
      · simp [setId, he, lookupId, ih]

theorem lookupId_setId_ne (id' id i : Nat) (p : List (Nat × Nat)) (h : id' ≠ id) :
    lookupId id' (setId id i p) = lookupId id' p := by
  induction p with
  | nil => simp [setId, lookupId, Ne.symm h]
  | cons e rest ih =>
      by_cases he : e.1 = id
      · have h2 : ¬ e.1 = id' := fun hc => h (hc ▸ he)
        simp [setId, he, lookupId, h2, Ne.symm h]
      · by_cases h3 : e.1 = id'
        · simp [setId, he, lookupId, h3, h]
        · simp [setId, he, lookupId, h3, h, ih]

theorem setId_of_lookupId_none (id i : Nat) (p : List (Nat × Nat))
    (h : lookupId id p = none) : setId id i p = p ++ [(id, i)] := by
  induction p with
  | nil => simp [setId]
  | cons e rest ih =>
      by_cases he : e.1 = id
      · simp [lookupId, he] at h
      · simp [lookupId, he] at h
        simp [setId, he, ih h]

theorem mem_of_lookupId (id i : Nat) (p : List (Nat × Nat))
    (h : lookupId id p = some i) : (id, i) ∈ p := by
  induction p with
  | nil => simp [lookupId] at h
  | cons e rest ih =>
      by_cases he : e.1 = id
      · simp [lookupId, he] at h
        obtain ⟨a, b⟩ := e
        simp at he h
        subst he
        subst h
        exact List.mem_cons_self _ _
      · simp [lookupId, he] at h
        exact List.mem_cons_of_mem _ (ih h)

/-! ### Helper lemmas about the promise ledger -/

theorem length_settleAt (l : List PromiseStatus) (i : Nat) (s : PromiseStatus) :
    (settleAt l i s).length = l.length := by
  unfold settleAt
  cases h : l.get? i with
  | none => rfl
  | some v => cases v <;> simp

theorem settleAt_get?_ne (l : List PromiseStatus) (i j : Nat) (s : PromiseStatus)
    (h : j ≠ i) : (settleAt l i s).get? j = l.get? j := by
  unfold settleAt
  cases hv : l.get? i with
  | none => rfl
  | some v =>
      cases v with
      | unsettled => exact List.get?_set_ne s l (Ne.symm h)
      | resolved w => rfl
      | rejected e => rfl

theorem settleAt_get?_self (l : List PromiseStatus) (i : Nat) (s : PromiseStatus)
    (h : l.get? i = some PromiseStatus.unsettled) :
    (settleAt l i s).get? i = some s := by
  have hi : i < l.length := by
    by_contra hc
    rw [List.get?_eq_none.2 (Nat.le_of_not_lt hc)] at h
    exact Option.noConfusion h
  unfold settleAt
  rw [h]
  exact List.get?_set_eq_of_lt s hi

theorem settleAt_of_settled (l : List PromiseStatus) (i : Nat) (s : PromiseStatus)
    (h : l.get? i ≠ some PromiseStatus.unsettled) : settleAt l i s = l := by
  unfold settleAt
  cases hv : l.get? i with
  | none => rfl
  | some v =>
      cases v with
      | unsettled => exact absurd hv h
      | resolved w => rfl
      | rejected e => rfl

theorem settleAt_preserves_settled (l : List PromiseStatus) (i j : Nat)
    (s s' : PromiseStatus) (hj : l.get? j = some s) (hs : s ≠ PromiseStatus.unsettled) :
    (settleAt l i s').get? j = some s := by
  by_cases hij : j = i
  · subst hij
    rw [settleAt_of_settled l j s' (by rw [hj]; exact fun hc => hs (by injection hc))]
    exact hj
  · rw [settleAt_get?_ne l i j s' hij]
    exact hj

theorem get?_append_single {l : List PromiseStatus} {j : Nat} {s x : PromiseStatus}
    (h : l.get? j = some s) : (l ++ [x]).get? j = some s := by
  have hj : j < l.length := by
    by_contra hc
    rw [List.get?_eq_none.2 (Nat.le_of_not_lt hc)] at h
    exact Option.noConfusion h
  rw [List.get?_append hj]
  exact h

theorem foldSettle_preserves_settled (msg : String) (p : List (Nat × Nat))
    (l : List PromiseStatus) (j : Nat) (s : PromiseStatus)
    (hj : l.get? j = some s) (hs : s ≠ PromiseStatus.unsettled) :
    (p.foldl (fun acc e => settleAt acc e.2 (PromiseStatus.rejected msg)) l).get? j = some s := by
  induction p generalizing l with
  | nil => exact hj
  | cons e rest ih =>
      exact ih (settleAt l e.2 (PromiseStatus.rejected msg))
        (settleAt_preserves_settled l e.2 j s _ hj hs)

theorem foldSettle_rejects (msg : String) (p : List (Nat × Nat))
    (l : List PromiseStatus) (j : Nat)
    (hmem : ∃ e ∈ p, e.2 = j)
    (hj : l.get? j = some PromiseStatus.unsettled ∨ l.get? j = some (PromiseStatus.rejected msg)) :
    (p.foldl (fun acc e => settleAt acc e.2 (PromiseStatus.rejected msg)) l).get? j =
      some (PromiseStatus.rejected msg) := by
  induction p generalizing l with
  | nil => simp at hmem
  | cons e rest ih =>
      by_cases hej : e.2 = j
      · have hset : (settleAt l e.2 (PromiseStatus.rejected msg)).get? j =
            some (PromiseStatus.rejected msg) := by
          subst hej
          rcases hj with h1 | h1
          · exact settleAt_get?_self l e.2 _ h1
          · rw [settleAt_of_settled l e.2 _ (by rw [h1]; intro hc; exact PromiseStatus.noConfusion (Option.some.inj hc))]
            exact h1
        exact foldSettle_preserves_settled msg rest _ j _ hset
          (fun hc => PromiseStatus.noConfusion hc)
      · obtain ⟨w, hw, hw2⟩ := hmem
        have hwrest : w ∈ rest := by
          rcases List.mem_cons.1 hw with h1 | h1
          · exact absurd (h1 ▸ hw2) hej
          · exact h1
        refine ih _ ⟨w, hwrest, hw2⟩ ?_
        rw [settleAt_get?_ne l e.2 j _ (Ne.symm hej)]
        exact hj

theorem foldSettle_not_mem (msg : String) (p : List (Nat × Nat))
    (l : List PromiseStatus) (j : Nat) (hmem : ∀ e ∈ p, e.2 ≠ j) :
    (p.foldl (fun acc e => settleAt acc e.2 (PromiseStatus.rejected msg)) l).get? j = l.get? j := by
  induction p generalizing l with
  | nil => rfl
  | cons e rest ih =>
      rw [List.foldl_cons, ih _ (fun w hw => hmem w (List.mem_cons_of_mem _ hw))]
      exact settleAt_get?_ne l e.2 j _ (Ne.symm (hmem e (List.mem_cons_self _ _)))

theorem rejectAllPending_preserves_settled (msg : String) (st : AgentState) (j : Nat)
    (s : PromiseStatus) (hj : st.requests.get? j = some s) (hs : s ≠ PromiseStatus.unsettled) :
    (rejectAllPending msg st).requests.get? j = some s :=
  foldSettle_preserves_settled msg st.pending st.requests j s hj hs

theorem handleSocketResponse_preserves_settled (rid : Nat) (data : Envelope) (st : AgentState)
    (j : Nat) (s : PromiseStatus) (hj : st.requests.get? j = some s)
    (hs : s ≠ PromiseStatus.unsettled) :
    (handleSocketResponse rid data st).requests.get? j = some s := by
  unfold handleSocketResponse
  cases h : lookupId rid st.pending with
  | none => exact hj
  | some i => exact settleAt_preserves_settled st.requests i j s _ hj hs

theorem handleSocketError_preserves_settled (rid : Nat) (msg : String) (st : AgentState)
    (j : Nat) (s : PromiseStatus) (hj : st.requests.get? j = some s)
    (hs : s ≠ PromiseStatus.unsettled) :
    (handleSocketError rid msg st).requests.get? j = some s := by
  unfold handleSocketError
  cases h : lookupId rid st.pending with
  | none => exact hj
  | some i => exact settleAt_preserves_settled st.requests i j s _ hj hs

theorem timeoutFire_preserves_settled (rid : Nat) (st : AgentState)
    (j : Nat) (s : PromiseStatus) (hj : st.requests.get? j = some s)
    (hs : s ≠ PromiseStatus.unsettled) :
    (timeoutFire rid st).requests.get? j = some s := by
  unfold timeoutFire
  cases h : lookupId rid st.pending with
  | none => exact hj
  | some i => exact settleAt_preserves_settled st.requests i j s _ hj hs

theorem onMessage_preserves_settled (data : Envelope) (st : AgentState)
    (j : Nat) (s : PromiseStatus) (hj : st.requests.get? j = some s)
    (hs : s ≠ PromiseStatus.unsettled) :
    (onMessage data st).requests.get? j = some s := by
  unfold onMessage
  cases ha : lookupField "action" data with
  | none => exact hj
  | some f =>
      cases f with
      | num n => exact hj
      | bool b => exact hj
      | str a =>
          by_cases h1 : a ∈ responseActions
          · simp only [h1, if_true]
            cases hr : lookupField "request_id" data with
            | none => exact hj
            | some g =>
                cases g with
                | num rid => exact handleSocketResponse_preserves_settled rid data st j s hj hs
                | str s2 => exact hj
                | bool b => exact hj
          · simp only [h1, if_false]
            by_cases h2 : a = "error"
            · simp only [h2, if_true]
              cases hr : lookupField "request_id" data with
              | none => exact rejectAllPending_preserves_settled _ st j s hj hs
              | some g =>
                  cases g with
                  | num rid => exact handleSocketError_preserves_settled rid _ st j s hj hs
                  | str s2 =>
                      by_cases h3 : s2 = ""
                      · simp only [h3, if_true]
                        exact rejectAllPending_preserves_settled _ st j s hj hs
                      · simp only [h3, if_false]
                        exact hj
                  | bool b =>
                      cases b with
                      | true => exact hj
                      | false => exact rejectAllPending_preserves_settled _ st j s hj hs
            · simp only [h2, if_false]
              exact hj

/-- No event of the manager ever settles a promise record a second time:
once a record is resolved or rejected, every later event leaves it as is. -/
theorem stepEv_preserves_settled (ev : Ev) (st : AgentState)
    (j : Nat) (s : PromiseStatus) (hj : st.requests.get? j = some s)
    (hs : s ≠ PromiseStatus.unsettled) :
    (stepEv ev st).requests.get? j = some s := by
  cases ev with
  | send now sendErr =>
      show ((emitAndWait now sendErr st).1).requests.get? j = some s
      unfold emitAndWait
      by_cases hc : st.isConnected && st.socketPresent
      · simp only [hc, if_true]
        cases sendErr with
        | none => exact get?_append_single hj
        | some m =>
            exact handleSocketError_preserves_settled _ _ _ j s (get?_append_single hj) hs
      · simp only [hc, if_false]
        exact hj
  | msg data => exact onMessage_preserves_settled data st j s hj hs
  | timeout rid => exact timeoutFire_preserves_settled rid st j s hj hs
  | close =>
      show (onClose st).requests.get? j = some s
      unfold onClose
      exact rejectAllPending_preserves_settled _ _ j s hj hs
  | sockError =>
      show (onError st).requests.get? j = some s
      unfold onError
      exact rejectAllPending_preserves_settled _ _ j s hj hs
  | opened => exact hj
  | connectCall =>
      show ((connect st).1).requests.get? j = some s
      unfold connect
      split <;> exact hj
  | reconnectCb =>
      show ((shouldReconnect st).1).requests.get? j = some s
      unfold shouldReconnect
      split <;> exact hj
  | sendEventStart =>
      show (sendEventReconnect st).requests.get? j = some s
      unfold sendEventReconnect connect
      split
      · exact hj
      · split <;> exact hj
  | periodicTick =>
      show (periodicReconnectCheck st).requests.get? j = some s
      unfold periodicReconnectCheck connect
      split
      · split <;> exact hj
      · exact hj

theorem run_cons (ev : Ev) (evs : List Ev) (st : AgentState) :
    run (ev :: evs) st = run evs (stepEv ev st) := rfl

theorem lookupId_of_mem_nodup (p : List (Nat × Nat)) (e : Nat × Nat)
    (hnd : (p.map Prod.fst).Nodup) (hm : e ∈ p) : lookupId e.1 p = some e.2 := by
  induction p with
  | nil => simp at hm
  | cons h rest ih =>
      have hnd' : h.1 ∉ rest.map Prod.fst ∧ (rest.map Prod.fst).Nodup := by
        rw [List.map_cons] at hnd
        exact List.nodup_cons.1 hnd
      rcases List.mem_cons.1 hm with h1 | h1
      · subst h1
        simp [lookupId]
      · have hne : ¬ h.1 = e.1 := fun hc => hnd'.1 (by
          rw [hc]
          exact List.mem_map_of_mem Prod.fst h1)
        simp [lookupId, hne, ih hnd'.2 h1]

theorem emitAndWait_of_connected (now : Nat) (sendErr : Option String) (st : AgentState)
    (h1 : st.isConnected = true) (h2 : st.socketPresent = true) (h3 : sendErr = none) :
    emitAndWait now sendErr st =
      ({ st with
         requests := st.requests ++ [PromiseStatus.unsettled]
         pending := setId now st.requests.length st.pending }, Except.ok now) := by
  subst h3
  unfold emitAndWait
  simp [h1, h2]

/-- A burst of N correlated sends at the given millisecond timestamps,
none of which fails synchronously. -/
def sendBurst (ts : List Nat) : List Ev := ts.map (fun t => Ev.send t none)

theorem lookupId_sendBurst_ne (ts : List Nat) (st : AgentState) (t : Nat)
    (h : ∀ t2 ∈ ts, t2 ≠ t) :
    lookupId t (run (sendBurst ts) st).pending = lookupId t st.pending := by
  induction ts generalizing st with
  | nil => rfl
  | cons t2 rest ih =>
      rw [show sendBurst (t2 :: rest) = Ev.send t2 none :: sendBurst rest from rfl,
          run_cons, ih _ (fun x hx => h x (List.mem_cons_of_mem _ hx))]
      show lookupId t ((emitAndWait t2 none st).1).pending = lookupId t st.pending
      unfold emitAndWait
      by_cases hc : st.isConnected && st.socketPresent
      · simp only [hc, if_true]
        exact lookupId_setId_ne t t2 _ st.pending (Ne.symm (h t2 (List.mem_cons_self _ _)))
      · simp [hc]

theorem sendBurst_fresh (ts : List Nat) :
    ∀ st : AgentState, st.isConnected = true → st.socketPresent = true → ts.Nodup →
      (∀ t ∈ ts, lookupId t st.pending = none) →
      (run (sendBurst ts) st).pending.length = st.pending.length + ts.length ∧
      ∀ t ∈ ts, lookupId t (run (sendBurst ts) st).pending ≠ none := by
  induction ts with
  | nil =>
      intro st _ _ _ _
      exact ⟨rfl, by simp⟩
  | cons t rest ih =>
      intro st h1 h2 hnd hfresh
      have hstep := emitAndWait_of_connected t none st h1 h2 rfl
      have hrun : run (sendBurst (t :: rest)) st =
          run (sendBurst rest) ((emitAndWait t none st).1) := rfl
      set st₁ := (emitAndWait t none st).1 with hst₁
      have hpend₁ : st₁.pending = st.pending ++ [(t, st.requests.length)] := by
        rw [hst₁, hstep]
        exact setId_of_lookupId_none t _ st.pending (hfresh t (List.mem_cons_self _ _))
      have hconn₁ : st₁.isConnected = true := by rw [hst₁, hstep]; exact h1
      have hsock₁ : st₁.socketPresent = true := by rw [hst₁, hstep]; exact h2
      have hnd' := List.nodup_cons.1 hnd
      have hfresh₁ : ∀ t2 ∈ rest, lookupId t2 st₁.pending = none := by
        intro t2 ht2
        have hne : t2 ≠ t := fun hc => hnd'.1 (hc ▸ ht2)
        rw [hst₁, hstep]
        show lookupId t2 (setId t st.requests.length st.pending) = none
        rw [lookupId_setId_ne t2 t _ st.pending hne]
        exact hfresh t2 (List.mem_cons_of_mem _ ht2)
      obtain ⟨hlen, hmem⟩ := ih st₁ hconn₁ hsock₁ hnd'.2 hfresh₁
      constructor
      · rw [hrun, hlen, hpend₁]
        simp [Nat.add_assoc, Nat.add_comm 1 rest.length]
      · intro t2 ht2
        rcases List.mem_cons.1 ht2 with h3 | h3
        · subst h3
          rw [hrun, lookupId_sendBurst_ne rest st₁ t2
                (fun x hx => fun hc => hnd'.1 (hc ▸ hx))]
          rw [hst₁, hstep]
          show lookupId t2 (setId t2 st.requests.length st.pending) ≠ none
          rw [lookupId_setId_self]
          exact fun hc => Option.noConfusion hc
        · exact hrun ▸ hmem t2 h3

/-! ### Claim C1 -/

/-- C1, counterexample.  The claim states that N correlated sends issued
while all remain pending always receive pairwise distinct correlation ids
and N distinct table entries.  The code derives the id from the send's
millisecond timestamp (`Date.now().toString()`), so two sends issued in the
same millisecond — here both at t = 1000ms, the second issued while the
first is still pending — receive the same id `1000`, and the second
`pendingRequests.set` overwrites the first entry: the table holds one
entry, not two. -/
theorem c1_same_millisecond_sends_collide :
    (emitAndWait 1000 none connState).2 = Except.ok 1000 ∧
    lookupId 1000 ((emitAndWait 1000 none connState).1).pending = some 0 ∧
    (emitAndWait 1000 none ((emitAndWait 1000 none connState).1)).2 = Except.ok 1000 ∧
    ((emitAndWait 1000 none ((emitAndWait 1000 none connState).1)).1).pending.length = 1 := by
  exact ⟨rfl, rfl, rfl, rfl⟩

/-- C1 (amended): correlated sends issued at pairwise distinct millisecond
timestamps, each fresh in the table, receive pairwise distinct correlation
ids (the id of a send is exactly its timestamp, so distinct timestamps give
distinct ids) and produce N distinct table entries — the table grows by N
and contains every id.  A send sharing its millisecond timestamp with a
pending request reuses that id and replaces the entry
(`c1_same_millisecond_sends_collide`). -/
theorem c1_distinct_timestamp_sends_distinct_entries
    (ts : List Nat) (st : AgentState)
    (h1 : st.isConnected = true) (h2 : st.socketPresent = true)
    (hnd : ts.Nodup) (hfresh : ∀ t ∈ ts, lookupId t st.pending = none) :
    (∀ t ∈ ts, ∀ st2 : AgentState, st2.isConnected = true → st2.socketPresent = true →
        (emitAndWait t none st2).2 = Except.ok t) ∧
    (run (sendBurst ts) st).pending.length = st.pending.length + ts.length ∧
    ∀ t ∈ ts, lookupId t (run (sendBurst ts) st).pending ≠ none := by
  refine ⟨?_, (sendBurst_fresh ts st h1 h2 hnd hfresh).1,
          (sendBurst_fresh ts st h1 h2 hnd hfresh).2⟩
  intro t _ st2 g1 g2
  rw [emitAndWait_of_connected t none st2 g1 g2 rfl]

theorem c1_distinct_timestamp_sends_distinct_entries_witness :
    (connState.isConnected = true ∧ connState.socketPresent = true ∧
      ([1000, 1001] : List Nat).Nodup ∧
      (∀ t ∈ ([1000, 1001] : List Nat), lookupId t connState.pending = none)) ∧
    ((run (sendBurst [1000, 1001]) connState).pending.length =
        connState.pending.length + 2 ∧
      ∀ t ∈ ([1000, 1001] : List Nat),
        lookupId t (run (sendBurst [1000, 1001]) connState).pending ≠ none) :=
  ⟨⟨by decide, by decide, by decide, by decide⟩,
    ⟨(c1_distinct_timestamp_sends_distinct_entries [1000, 1001] connState
        (by decide) (by decide) (by decide) (by decide)).2.1,
     (c1_distinct_timestamp_sends_distinct_entries [1000, 1001] connState
        (by decide) (by decide) (by decide) (by decide)).2.2⟩⟩

/-! ### Claim C2 -/

/-- The example reply envelope of the spec: a `query_response` for
correlation id 1000 (the decimal-numeral id of a send at t = 1000ms)
carrying `content = "hello"`. -/
def respEnv : Envelope :=
  [("action", JField.str "query_response"),
   ("request_id", JField.num 1000),
   ("content", JField.str "hello")]

/-- C2, counterexample.  The claim states that every Pending Request is
terminated by exactly one of the four terminal transitions.  Two sends in
the same millisecond (t = 1000ms) make the second overwrite the first's
table entry; afterwards a matching reply arrives, both 30s timeout
callbacks fire and the connection closes — every terminal avenue of the
claim runs — yet the first request's promise (ledger record 0) is still
unsettled at the end: it was terminated by none of them, while the table is
empty. -/
theorem c2_overwritten_request_never_terminated :
    (run [Ev.send 1000 none, Ev.send 1000 none, Ev.msg respEnv,
          Ev.timeout 1000, Ev.timeout 1000, Ev.close] connState).requests.get? 0 =
      some PromiseStatus.unsettled ∧
    (run [Ev.send 1000 none, Ev.send 1000 none, Ev.msg respEnv,
          Ev.timeout 1000, Ev.timeout 1000, Ev.close] connState).requests.get? 1 =
      some (PromiseStatus.resolved respEnv) ∧
    (run [Ev.send 1000 none, Ev.send 1000 none, Ev.msg respEnv,
          Ev.timeout 1000, Ev.timeout 1000, Ev.close] connState).pending = [] := by
  exact ⟨rfl, rfl, rfl⟩

/-- C2 (amended): as long as a pending request's correlation id is not
overwritten by a later same-millisecond send, its lifecycle is as claimed:
a terminal transition (matching response, per-request error, timeout)
settles its promise and removes its table entry immediately; a
resolve/reject/timeout attempt for an id absent from the table is a no-op
leaving the state unchanged; and once a record is settled no event of the
manager ever settles it again — the first terminal transition wins.  (A
request whose entry is overwritten is removed without any terminal
transition and its promise is never settled:
`c2_overwritten_request_never_terminated`.) -/
theorem c2_terminal_transition_unique :
    (∀ (st : AgentState) (rid : Nat) (data : Envelope) (i : Nat),
       (∀ e ∈ st.pending, st.requests.get? e.2 = some PromiseStatus.unsettled) →
       lookupId rid st.pending = some i →
       (handleSocketResponse rid data st).requests.get? i =
           some (PromiseStatus.resolved data) ∧
         lookupId rid (handleSocketResponse rid data st).pending = none) ∧
    (∀ (st : AgentState) (rid : Nat) (msg : String) (i : Nat),
       (∀ e ∈ st.pending, st.requests.get? e.2 = some PromiseStatus.unsettled) →
       lookupId rid st.pending = some i →
       (handleSocketError rid msg st).requests.get? i =
           some (PromiseStatus.rejected msg) ∧
         lookupId rid (handleSocketError rid msg st).pending = none) ∧
    (∀ (st : AgentState) (rid : Nat) (i : Nat),
       (∀ e ∈ st.pending, st.requests.get? e.2 = some PromiseStatus.unsettled) →
       lookupId rid st.pending = some i →
       (timeoutFire rid st).requests.get? i =
           some (PromiseStatus.rejected "WebSocket response timeout") ∧
         lookupId rid (timeoutFire rid st).pending = none) ∧
    (∀ (st : AgentState) (rid : Nat) (data : Envelope) (msg : String),
       lookupId rid st.pending = none →
       handleSocketResponse rid data st = st ∧
         handleSocketError rid msg st = st ∧ timeoutFire rid st = st) ∧
    (∀ (ev : Ev) (st : AgentState) (j : Nat) (s : PromiseStatus),
       st.requests.get? j = some s → s ≠ PromiseStatus.unsettled →
       (stepEv ev st).requests.get? j = some s) := by
  refine ⟨?_, ?_, ?_, ?_, fun ev st j s h1 h2 => stepEv_preserves_settled ev st j s h1 h2⟩
  · intro st rid data i hinv hlk
    have hunset : st.requests.get? i = some PromiseStatus.unsettled :=
      hinv (rid, i) (mem_of_lookupId rid i st.pending hlk)
    unfold handleSocketResponse
    rw [hlk]
    exact ⟨settleAt_get?_self st.requests i _ hunset, lookupId_eraseId_self rid st.pending⟩
  · intro st rid msg i hinv hlk
    have hunset : st.requests.get? i = some PromiseStatus.unsettled :=
      hinv (rid, i) (mem_of_lookupId rid i st.pending hlk)
    unfold handleSocketError
    rw [hlk]
    exact ⟨settleAt_get?_self st.requests i _ hunset, lookupId_eraseId_self rid st.pending⟩
  · intro st rid i hinv hlk
    have hunset : st.requests.get? i = some PromiseStatus.unsettled :=
      hinv (rid, i) (mem_of_lookupId rid i st.pending hlk)
    unfold timeoutFire
    rw [hlk]
    exact ⟨settleAt_get?_self st.requests i _ hunset, lookupId_eraseId_self rid st.pending⟩
  · intro st rid data msg hlk
    unfold handleSocketResponse handleSocketError timeoutFire
    rw [hlk]
    exact ⟨rfl, rfl, rfl⟩

theorem c2_terminal_transition_unique_witness :
    ((∀ e ∈ ((emitAndWait 1000 none connState).1).pending,
        ((emitAndWait 1000 none connState).1).requests.get? e.2 =
          some PromiseStatus.unsettled) ∧
      lookupId 1000 ((emitAndWait 1000 none connState).1).pending = some 0) ∧
    ((handleSocketResponse 1000 respEnv ((emitAndWait 1000 none connState).1)).requests.get? 0 =
        some (PromiseStatus.resolved respEnv) ∧
      lookupId 1000
          (handleSocketResponse 1000 respEnv ((emitAndWait 1000 none connState).1)).pending =
        none) :=
  ⟨⟨by decide, by decide⟩,
    c2_terminal_transition_unique.1 ((emitAndWait 1000 none connState).1) 1000 respEnv 0
      (by decide) (by decide)⟩

/-! ### Claim C3 -/

/-- Liveness side-condition of the table: every promise record that is still
unsettled is reachable from the pending table.  It holds whenever no send
has overwritten the entry of a still-pending request with the same
millisecond id, and it is what the 30s timeout needs in order to guarantee
settlement. -/
def LiveTable (st : AgentState) : Prop :=
  ∀ i, i < st.requests.length →
    st.requests.get? i = some PromiseStatus.unsettled → ∃ e ∈ st.pending, e.2 = i

instance (st : AgentState) : Decidable (LiveTable st) := by
  unfold LiveTable
  infer_instance

/-- C3, counterexample.  The claim states that every correlated send's
deferred reaches a terminal state at latest via the 30s timeout.  After two
sends in the same millisecond (t = 1000ms) the second overwrites the
first's table entry; when the two scheduled 30s timeout callbacks then
fire, the first callback rejects the overwriting request's promise (ledger
record 1) and the second finds the id gone — the first request's promise
(ledger record 0) is still unsettled after every timeout for its id has
executed, and no later event can ever settle it (its record is unreachable
from the table). -/
theorem c3_overwritten_request_unsettled_after_timeout :
    lookupId 1000
        ((run [Ev.send 1000 none, Ev.send 1000 none] connState).pending) = some 1 ∧
    (run [Ev.send 1000 none, Ev.send 1000 none, Ev.timeout 1000,
          Ev.timeout 1000] connState).requests.get? 0 = some PromiseStatus.unsettled ∧
    (run [Ev.send 1000 none, Ev.send 1000 none, Ev.timeout 1000,
          Ev.timeout 1000] connState).requests.get? 1 =
      some (PromiseStatus.rejected "WebSocket response timeout") := by
  exact ⟨rfl, rfl, rfl⟩

/-- C3 (amended): provided no same-millisecond send has overwritten a
pending entry (the table is live: every unsettled record is still reachable
from the table under its distinct key), every created promise record is, at any point in time, either
already settled, or still pending under some correlation id whose scheduled
30s timeout callback settles it (rejecting with the timeout error) when it
fires — so the deferred reaches a terminal state at latest at its 30s
deadline. -/
theorem c3_settled_or_timeout_settles (st : AgentState) (i : Nat)
    (hkeys : (st.pending.map Prod.fst).Nodup)
    (hlive : LiveTable st) (hi : i < st.requests.length) :
    st.requests.get? i ≠ some PromiseStatus.unsettled ∨
    ∃ rid, lookupId rid st.pending = some i ∧
      (timeoutFire rid st).requests.get? i =
        some (PromiseStatus.rejected "WebSocket response timeout") := by
  by_cases h : st.requests.get? i = some PromiseStatus.unsettled
  · right
    obtain ⟨e, he, he2⟩ := hlive i hi h
    have hl : lookupId e.1 st.pending = some i := by
      rw [lookupId_of_mem_nodup st.pending e hkeys he, he2]
    refine ⟨e.1, hl, ?_⟩
    unfold timeoutFire
    rw [hl]
    exact settleAt_get?_self st.requests i _ h
  · left
    exact h

theorem c3_settled_or_timeout_settles_witness :
    ((((emitAndWait 1000 none connState).1).pending.map Prod.fst).Nodup ∧
      LiveTable ((emitAndWait 1000 none connState).1) ∧
      0 < ((emitAndWait 1000 none connState).1).requests.length) ∧
    (((emitAndWait 1000 none connState).1).requests.get? 0 ≠
        some PromiseStatus.unsettled ∨
      ∃ rid, lookupId rid ((emitAndWait 1000 none connState).1).pending = some 0 ∧
        (timeoutFire rid ((emitAndWait 1000 none connState).1)).requests.get? 0 =
          some (PromiseStatus.rejected "WebSocket response timeout")) :=
  ⟨⟨by decide, by decide, by decide⟩,
    c3_settled_or_timeout_settles ((emitAndWait 1000 none connState).1) 0
      (by decide) (by decide) (by decide)⟩

/-! ### Claim C4 -/

/-- C4 (confirmed): on an unexpected connection closure, `_onClose` marks
the manager not connected, rejects every entry of the Pending Request Table
with the disconnection error (`new Error('WebSocket disconnected')`), and
the table is empty immediately afterwards. -/
theorem c4_close_rejects_all_pending (st : AgentState)
    (hinv : ∀ e ∈ st.pending, st.requests.get? e.2 = some PromiseStatus.unsettled) :
    (onClose st).isConnected = false ∧
    (onClose st).pending = [] ∧
    ∀ e ∈ st.pending,
      (onClose st).requests.get? e.2 =
        some (PromiseStatus.rejected "WebSocket disconnected") := by
  refine ⟨rfl, rfl, ?_⟩
  intro e he
  exact foldSettle_rejects "WebSocket disconnected" st.pending st.requests e.2
    ⟨e, he, rfl⟩ (Or.inl (hinv e he))

theorem c4_close_rejects_all_pending_witness :
    (∀ e ∈ ((run (sendBurst [1000, 1001]) connState)).pending,
        ((run (sendBurst [1000, 1001]) connState)).requests.get? e.2 =
          some PromiseStatus.unsettled) ∧
    ((onClose (run (sendBurst [1000, 1001]) connState)).isConnected = false ∧
      (onClose (run (sendBurst [1000, 1001]) connState)).pending = [] ∧
      ∀ e ∈ (run (sendBurst [1000, 1001]) connState).pending,
        (onClose (run (sendBurst [1000, 1001]) connState)).requests.get? e.2 =
          some (PromiseStatus.rejected "WebSocket disconnected")) :=
  ⟨by decide, c4_close_rejects_all_pending (run (sendBurst [1000, 1001]) connState) (by decide)⟩

/-! ### Claim C5 -/

/-- A manager that is not connected (socket closed and absent), as after a
terminal close. -/
def closedState : AgentState :=
  { connState with isConnected := false, socketPresent := false }

/-- C5 (confirmed): a correlated send issued while the connection is not
open throws synchronously with the connection-not-ready error — before any
correlation id is generated or table entry inserted, so the state is
returned unchanged and nothing is queued — and that error is distinct from
the timeout error. -/
theorem c5_send_while_not_open_fails_fast (now : Nat) (sendErr : Option String)
    (st : AgentState) (h : ¬(st.isConnected = true ∧ st.socketPresent = true)) :
    emitAndWait now sendErr st = (st, Except.error "WebSocket not connected") ∧
    "WebSocket not connected" ≠ "WebSocket response timeout" := by
  constructor
  · have hb : (st.isConnected && st.socketPresent) = false := by
      cases hic : st.isConnected <;> cases hsp : st.socketPresent <;> simp_all
    unfold emitAndWait
    rw [hb]
    rfl
  · decide

theorem c5_send_while_not_open_fails_fast_witness :
    ¬(closedState.isConnected = true ∧ closedState.socketPresent = true) ∧
    (emitAndWait 1000 none closedState =
        (closedState, Except.error "WebSocket not connected") ∧
      "WebSocket not connected" ≠ "WebSocket response timeout") :=
  ⟨by decide, c5_send_while_not_open_fails_fast 1000 none closedState (by decide)⟩

/-! ### Claim C6 -/

/-- C6 (confirmed): `connect()` is idempotent and serializes concurrent
attempts.  If an attempt is already in progress, `connect()` returns the
very same in-flight connection promise and changes nothing — in particular
no new socket is constructed.  Starting from a state with no attempt in
progress, a first call performs exactly one physical attempt and a second
concurrent call returns the same state and the same promise, leaving the
physical-attempt count at one more than before the first call, so both
callers observe the same outcome. -/
theorem c6_connect_idempotent (st : AgentState) :
    (st.connectionInProgress = true → connect st = (st, st.promiseId)) ∧
    (st.connectionInProgress = false →
      connect ((connect st).1) = ((connect st).1, (connect st).2) ∧
      ((connect st).1).attemptsStarted = st.attemptsStarted + 1 ∧
      ((connect ((connect st).1)).1).attemptsStarted = st.attemptsStarted + 1) := by
  constructor
  · intro h
    unfold connect
    simp [h]
  · intro h
    unfold connect
    simp [h]

theorem c6_connect_idempotent_witness :
    (connState.connectionInProgress = false ∧
      connect ((connect connState).1) = ((connect connState).1, (connect connState).2) ∧
      ((connect connState).1).attemptsStarted = connState.attemptsStarted + 1 ∧
      ((connect ((connect connState).1)).1).attemptsStarted =
        connState.attemptsStarted + 1) ∧
    (((connect connState).1).connectionInProgress = true ∧
      connect ((connect connState).1) =
        ((connect connState).1, ((connect connState).1).promiseId)) :=
  ⟨⟨by decide, (c6_connect_idempotent connState).2 (by decide)⟩,
    ⟨by decide, (c6_connect_idempotent ((connect connState).1)).1 (by decide)⟩⟩

/-! ### Claim C7 -/

/-- A manager whose retry budget is exhausted (counter at the maximum). -/
def exhaustedState : AgentState :=
  { closedState with reconnectAttempts := maxReconnectAttempts }

/-- C7 (confirmed): the reconnection policy depends only on the attempt
counter.  Below the maximum of 5 it increments the counter and returns the
delay `min(1000 * 1.5 ^ attempts, 5000)` ms — a geometric progression with
ratio 1.5 on the base coefficient 1000 ms (1 s), capped at 5000 ms (5 s)
and never below the 1000 ms base; at or beyond the maximum it returns
"stop" (`false`) and leaves the counter unchanged, so no further automatic
retry is scheduled until the counter is reset. -/
theorem c7_reconnect_policy :
    (∀ st : AgentState, st.reconnectAttempts < maxReconnectAttempts →
        shouldReconnect st =
          ({ st with reconnectAttempts := st.reconnectAttempts + 1 },
            some (min (1000 * (3 / 2 : ℚ) ^ (st.reconnectAttempts + 1)) 5000))) ∧
    (∀ st : AgentState, maxReconnectAttempts ≤ st.reconnectAttempts →
        shouldReconnect st = (st, none)) ∧
    (∀ st1 st2 : AgentState, st1.reconnectAttempts = st2.reconnectAttempts →
        (shouldReconnect st1).2 = (shouldReconnect st2).2) ∧
    (∀ k : Nat, min (1000 * (3 / 2 : ℚ) ^ k) 5000 ≤ 5000) ∧
    (∀ k : Nat, (1000 : ℚ) ≤ min (1000 * (3 / 2 : ℚ) ^ (k + 1)) 5000) ∧
    (∀ k : Nat, 1000 * (3 / 2 : ℚ) ^ (k + 1) = (3 / 2) * (1000 * (3 / 2 : ℚ) ^ k)) := by
  refine ⟨?_, ?_, ?_, ?_, ?_, ?_⟩
  · intro st h
    unfold shouldReconnect
    rw [if_neg (not_le.mpr h)]
  · intro st h
    unfold shouldReconnect
    rw [if_pos h]
  · intro st1 st2 h
    unfold shouldReconnect
    rw [h]
    by_cases hc : st2.reconnectAttempts ≥ maxReconnectAttempts
    · rw [if_pos hc, if_pos hc]
    · rw [if_neg hc, if_neg hc]
  · intro k
    exact min_le_right _ _
  · intro k
    refine le_min ?_ (by norm_num)
    have hp : (1 : ℚ) ≤ (3 / 2 : ℚ) ^ (k + 1) := one_le_pow₀ (by norm_num)
    nlinarith
  · intro k
    rw [pow_succ]
    ring

theorem c7_reconnect_policy_witness :
    (connState.reconnectAttempts < maxReconnectAttempts ∧
      shouldReconnect connState =
        ({ connState with reconnectAttempts := connState.reconnectAttempts + 1 },
          some (min (1000 * (3 / 2 : ℚ) ^ (connState.reconnectAttempts + 1)) 5000))) ∧
    (maxReconnectAttempts ≤ exhaustedState.reconnectAttempts ∧
      shouldReconnect exhaustedState = (exhaustedState, none)) ∧
    min (1000 * (3 / 2 : ℚ) ^ 4) 5000 ≤ 5000 ∧
    (1000 : ℚ) ≤ min (1000 * (3 / 2 : ℚ) ^ (0 + 1)) 5000 :=
  ⟨⟨by decide, c7_reconnect_policy.1 connState (by decide)⟩,
    ⟨by decide, c7_reconnect_policy.2.1 exhaustedState (by decide)⟩,
    c7_reconnect_policy.2.2.2.1 4,
    c7_reconnect_policy.2.2.2.2.1 0⟩

/-! ### Claim C8 -/

theorem onMessage_response (data : Envelope) (st : AgentState) (rid : Nat)
    (ha : lookupField "action" data = some (JField.str "query_response"))
    (hr : lookupField "request_id" data = some (JField.num rid)) :
    onMessage data st = handleSocketResponse rid data st := by
  unfold onMessage
  rw [ha, hr]
  simp [responseActions]

/-- The payload of an inbound reply as the spec describes it: the envelope
stripped of its routing fields (`action`, `request_id`).  Defined from the
spec's words, for comparison with what the code actually resolves with. -/
def payloadFields (e : Envelope) : Envelope :=
  e.filter (fun f => decide (f.1 ≠ "action") && decide (f.1 ≠ "request_id"))

/-- C8, counterexample.  The claim states the deferred resolves with the
envelope's payload — for the reply `respEnv` (action `query_response`,
request_id 1000, content `"hello"`) it should resolve with only
`content = "hello"`.  The code passes the entire parsed envelope to
`resolve` (`_handleSocketResponse(data.request_id, data)`), so the resolved
value is the full envelope including the `action` and `request_id` routing
fields, which differs from the payload-only object the claim describes.
The table entry is indeed removed. -/
theorem c8_resolves_with_full_envelope_not_payload :
    (onMessage respEnv ((emitAndWait 1000 none connState).1)).requests.get? 0 =
      some (PromiseStatus.resolved respEnv) ∧
    payloadFields respEnv = [("content", JField.str "hello")] ∧
    respEnv ≠ payloadFields respEnv ∧
    lookupId 1000 (onMessage respEnv ((emitAndWait 1000 none connState).1)).pending = none := by
  exact ⟨rfl, rfl, by decide, rfl⟩

/-- C8 (amended): if an inbound `query_response` envelope whose
`request_id` matches a pending correlation id arrives before the timeout
and before disconnection, the deferred result resolves with the entire
inbound envelope (routing fields included, not the stripped-down payload),
and the Pending Request Table no longer contains the correlation id. -/
theorem c8_matching_response_resolves (st : AgentState) (data : Envelope) (rid i : Nat)
    (hinv : ∀ e ∈ st.pending, st.requests.get? e.2 = some PromiseStatus.unsettled)
    (hlk : lookupId rid st.pending = some i)
    (ha : lookupField "action" data = some (JField.str "query_response"))
    (hr : lookupField "request_id" data = some (JField.num rid)) :
    (onMessage data st).requests.get? i = some (PromiseStatus.resolved data) ∧
    lookupId rid (onMessage data st).pending = none := by
  rw [onMessage_response data st rid ha hr]
  have hunset : st.requests.get? i = some PromiseStatus.unsettled :=
    hinv (rid, i) (mem_of_lookupId rid i st.pending hlk)
  unfold handleSocketResponse
  rw [hlk]
  exact ⟨settleAt_get?_self st.requests i _ hunset, lookupId_eraseId_self rid st.pending⟩

theorem c8_matching_response_resolves_witness :
    ((∀ e ∈ ((emitAndWait 999 none connState).1).pending,
        ((emitAndWait 999 none connState).1).requests.get? e.2 =
          some PromiseStatus.unsettled) ∧
      lookupId 999 ((emitAndWait 999 none connState).1).pending = some 0 ∧
      lookupField "action"
          [("action", JField.str "query_response"), ("request_id", JField.num 999)] =
        some (JField.str "query_response") ∧
      lookupField "request_id"
          [("action", JField.str "query_response"), ("request_id", JField.num 999)] =
        some (JField.num 999)) ∧
    ((onMessage [("action", JField.str "query_response"), ("request_id", JField.num 999)]
          ((emitAndWait 999 none connState).1)).requests.get? 0 =
        some (PromiseStatus.resolved
          [("action", JField.str "query_response"), ("request_id", JField.num 999)]) ∧
      lookupId 999
          (onMessage [("action", JField.str "query_response"), ("request_id", JField.num 999)]
            ((emitAndWait 999 none connState).1)).pending = none) :=
  ⟨⟨by decide, by decide, by decide, by decide⟩,
    c8_matching_response_resolves ((emitAndWait 999 none connState).1)
      [("action", JField.str "query_response"), ("request_id", JField.num 999)] 999 0
      (by decide) (by decide) (by decide) (by decide)⟩

/-! ### Claim C9 -/

theorem onMessage_global_error (data : Envelope) (st : AgentState) (m : String)
    (ha : lookupField "action" data = some (JField.str "error"))
    (hr : lookupField "request_id" data = none)
    (hm : lookupField "message" data = some (JField.str m)) :
    onMessage data st = rejectAllPending ("WebSocket server error: " ++ m) st := by
  unfold onMessage errMsgOf
  rw [ha, hr, hm]
  simp [responseActions]

/-- C9 (confirmed): an inbound `error` envelope that carries no
`request_id` is treated as connection-wide — every currently pending
request is rejected with the server error (message
`"WebSocket server error: <message>"`) and the Pending Request Table is
cleared. -/
theorem c9_global_error_rejects_all (st : AgentState) (data : Envelope) (m : String)
    (hinv : ∀ e ∈ st.pending, st.requests.get? e.2 = some PromiseStatus.unsettled)
    (ha : lookupField "action" data = some (JField.str "error"))
    (hr : lookupField "request_id" data = none)
    (hm : lookupField "message" data = some (JField.str m)) :
    (onMessage data st).pending = [] ∧
    ∀ e ∈ st.pending,
      (onMessage data st).requests.get? e.2 =
        some (PromiseStatus.rejected ("WebSocket server error: " ++ m)) := by
  rw [onMessage_global_error data st m ha hr hm]
  refine ⟨rfl, ?_⟩
  intro e he
  exact foldSettle_rejects ("WebSocket server error: " ++ m) st.pending st.requests e.2
    ⟨e, he, rfl⟩ (Or.inl (hinv e he))

theorem c9_global_error_rejects_all_witness :
    ((∀ e ∈ (run (sendBurst [2000, 2001]) connState).pending,
        (run (sendBurst [2000, 2001]) connState).requests.get? e.2 =
          some PromiseStatus.unsettled) ∧
      lookupField "action" [("action", JField.str "error"), ("message", JField.str "boom")] =
        some (JField.str "error") ∧
      lookupField "request_id"
          [("action", JField.str "error"), ("message", JField.str "boom")] = none ∧
      lookupField "message" [("action", JField.str "error"), ("message", JField.str "boom")] =
        some (JField.str "boom")) ∧
    ((onMessage [("action", JField.str "error"), ("message", JField.str "boom")]
          (run (sendBurst [2000, 2001]) connState)).pending = [] ∧
      ∀ e ∈ (run (sendBurst [2000, 2001]) connState).pending,
        (onMessage [("action", JField.str "error"), ("message", JField.str "boom")]
            (run (sendBurst [2000, 2001]) connState)).requests.get? e.2 =
          some (PromiseStatus.rejected "WebSocket server error: boom")) :=
  ⟨⟨by decide, by decide, by decide, by decide⟩,
    c9_global_error_rejects_all (run (sendBurst [2000, 2001]) connState)
      [("action", JField.str "error"), ("message", JField.str "boom")] "boom"
      (by decide) (by decide) (by decide) (by decide)⟩

/-! ### Claim C10 -/

theorem handleSocketError_reconnectAttempts (rid : Nat) (msg : String) (st : AgentState) :
    (handleSocketError rid msg st).reconnectAttempts = st.reconnectAttempts := by
  unfold handleSocketError
  cases lookupId rid st.pending <;> rfl

theorem onMessage_reconnectAttempts (data : Envelope) (st : AgentState) :
    (onMessage data st).reconnectAttempts = st.reconnectAttempts := by
  unfold onMessage
  cases lookupField "action" data with
  | none => rfl
  | some f =>
      cases f with
      | num n => rfl
      | bool b => rfl
      | str a =>
          by_cases h1 : a ∈ responseActions
          · simp only [h1, if_true]
            cases lookupField "request_id" data with
            | none => rfl
            | some g =>
                cases g with
                | num rid =>
                    show (handleSocketResponse rid data st).reconnectAttempts = _
                    unfold handleSocketResponse
                    cases lookupId rid st.pending <;> rfl
                | str s2 => rfl
                | bool b => rfl
          · simp only [h1, if_false]
            by_cases h2 : a = "error"
            · simp only [h2, if_true]
              cases lookupField "request_id" data with
              | none => rfl
              | some g =>
                  cases g with
                  | num rid => exact handleSocketError_reconnectAttempts rid _ st
                  | str s2 =>
                      show (if s2 = "" then
                          rejectAllPending ("WebSocket server error: " ++ errMsgOf data) st
                        else st).reconnectAttempts = st.reconnectAttempts
                      by_cases h3 : s2 = ""
                      · rw [if_pos h3]
                        rfl
                      · rw [if_neg h3]
                  | bool b =>
                      cases b
                      all_goals rfl
            · simp only [h2, if_false]

/-- C10 (confirmed): the reconnection counter always stays within
`0 ≤ reconnectAttempts ≤ maxReconnectAttempts` (0 is automatic for a
natural number): every event of the manager preserves the upper bound; the
`shouldReconnect` callback leaves the state untouched once the counter has
reached the maximum (it increments only strictly below it, by exactly one);
and a successful open, a send-triggered reconnect while not open, and a
periodic supervisory reconnection check each reset the counter to zero. -/
theorem c10_reconnect_counter_bounded :
    (∀ (ev : Ev) (st : AgentState),
       st.reconnectAttempts ≤ maxReconnectAttempts →
       (stepEv ev st).reconnectAttempts ≤ maxReconnectAttempts) ∧
    (∀ st : AgentState, maxReconnectAttempts ≤ st.reconnectAttempts →
       shouldReconnect st = (st, none)) ∧
    (∀ st : AgentState, st.reconnectAttempts < maxReconnectAttempts →
       ((shouldReconnect st).1).reconnectAttempts = st.reconnectAttempts + 1) ∧
    (∀ st : AgentState, (onOpen st).reconnectAttempts = 0) ∧
    (∀ st : AgentState, ¬(st.isConnected = true ∧ st.socketPresent = true) →
       (sendEventReconnect st).reconnectAttempts = 0) ∧
    (∀ st : AgentState, st.isConnected = false → st.socketPresent = false →
       st.connectionInProgress = false →
       (periodicReconnectCheck st).reconnectAttempts = 0) := by
  refine ⟨?_, ?_, ?_, fun st => rfl, ?_, ?_⟩
  · intro ev st h
    cases ev with
    | send now sendErr =>
        show ((emitAndWait now sendErr st).1).reconnectAttempts ≤ _
        unfold emitAndWait
        by_cases hc : st.isConnected && st.socketPresent
        · simp only [hc, if_true]
          cases sendErr with
          | none => exact h
          | some m =>
              rw [show ((handleSocketError (now)
                    ("WebSocket send failed: " ++ m)
                    { st with
                      requests := st.requests ++ [PromiseStatus.unsettled]
                      pending := setId now st.requests.length st.pending },
                  Except.ok now) : AgentState × Except String Nat).1 =
                  handleSocketError now ("WebSocket send failed: " ++ m)
                    { st with
                      requests := st.requests ++ [PromiseStatus.unsettled]
                      pending := setId now st.requests.length st.pending } from rfl,
                handleSocketError_reconnectAttempts]
              exact h
        · simp only [hc, if_false]
          exact h
    | msg data =>
        show (onMessage data st).reconnectAttempts ≤ _
        rw [onMessage_reconnectAttempts]
        exact h
    | timeout rid =>
        show (timeoutFire rid st).reconnectAttempts ≤ _
        unfold timeoutFire
        cases lookupId rid st.pending <;> exact h
    | close => exact h
    | sockError => exact h
    | opened =>
        show (0 : Nat) ≤ maxReconnectAttempts
        exact Nat.zero_le _
    | connectCall =>
        show ((connect st).1).reconnectAttempts ≤ _
        unfold connect
        split <;> exact h
    | reconnectCb =>
        show ((shouldReconnect st).1).reconnectAttempts ≤ _
        unfold shouldReconnect
        split
        · exact h
        · next hg =>
            have h5 : maxReconnectAttempts = 5 := rfl
            show st.reconnectAttempts + 1 ≤ maxReconnectAttempts
            rw [h5] at hg ⊢
            omega
    | sendEventStart =>
        show (sendEventReconnect st).reconnectAttempts ≤ _
        unfold sendEventReconnect connect
        split
        · exact h
        · split <;> exact Nat.zero_le _
    | periodicTick =>
        show (periodicReconnectCheck st).reconnectAttempts ≤ _
        unfold periodicReconnectCheck connect
        split
        · split <;> exact Nat.zero_le _
        · exact h
  · intro st h
    unfold shouldReconnect
    rw [if_pos h]
  · intro st h
    unfold shouldReconnect
    rw [if_neg (not_le.mpr h)]
  · intro st h
    have hb : (st.isConnected && st.socketPresent) = false := by
      cases hic : st.isConnected <;> cases hsp : st.socketPresent <;> simp_all
    unfold sendEventReconnect connect
    rw [hb]
    show ((if ((({ st with reconnectAttempts := 0 } : AgentState)).connectionInProgress) = true
        then _ else _ : AgentState × Nat)).1.reconnectAttempts = 0
    split <;> rfl
  · intro st h1 h2 h3
    unfold periodicReconnectCheck connect
    rw [h1, h2, h3]
    rfl

theorem c10_reconnect_counter_bounded_witness :
    (connState.reconnectAttempts ≤ maxReconnectAttempts ∧
      (stepEv Ev.reconnectCb connState).reconnectAttempts ≤ maxReconnectAttempts) ∧
    (maxReconnectAttempts ≤ exhaustedState.reconnectAttempts ∧
      shouldReconnect exhaustedState = (exhaustedState, none)) ∧
    (closedState.reconnectAttempts < maxReconnectAttempts ∧
      ((shouldReconnect closedState).1).reconnectAttempts =
        closedState.reconnectAttempts + 1) ∧
    (onOpen closedState).reconnectAttempts = 0 ∧
    (¬(closedState.isConnected = true ∧ closedState.socketPresent = true) ∧
      (sendEventReconnect closedState).reconnectAttempts = 0) ∧
    (periodicReconnectCheck closedState).reconnectAttempts = 0 :=
  ⟨⟨by decide, c10_reconnect_counter_bounded.1 Ev.reconnectCb connState (by decide)⟩,
    ⟨by decide, c10_reconnect_counter_bounded.2.1 exhaustedState (by decide)⟩,
    ⟨by decide, c10_reconnect_counter_bounded.2.2.1 closedState (by decide)⟩,
    c10_reconnect_counter_bounded.2.2.2.1 closedState,
    ⟨by decide, c10_reconnect_counter_bounded.2.2.2.2.1 closedState (by decide)⟩,
    c10_reconnect_counter_bounded.2.2.2.2.2 closedState (by decide) (by decide) (by decide)⟩
